import Mathlib

/-
Verification of the quant-news-trader core: a shallow embedding of the
technical-analysis signal engine (src/analysis.py), the option-contract
selector's confidence rule (src/options_trades.py) and the paper-trading
position ledger (src/portfolio.py).  Python floats are modelled as exact
rationals; Python's `round(x, nd)` (round half to even) is modelled by
`pyRound`; fallible operations return `Except`/`Option`; functions that in
the source fetch data themselves (prices, option chains, the clock) take
the fetched values as explicit arguments instead.
-/

/-- Round a rational to the nearest integer, ties going to the even
integer.  This models Python's built-in banker's rounding on exact values. -/
def roundHalfEven (q : ℚ) : ℤ :=
  if q - ⌊q⌋ < 1/2 then ⌊q⌋
  else if 1/2 < q - ⌊q⌋ then ⌊q⌋ + 1
  else if ⌊q⌋ % 2 = 0 then ⌊q⌋ else ⌊q⌋ + 1

/-- Model of Python's `round(q, d)` on exact rationals. -/
def pyRound (q : ℚ) (d : ℕ) : ℚ :=
  (roundHalfEven (q * 10 ^ d) : ℚ) / 10 ^ d

/-- Model of Python's `abs` on exact rationals. -/
def pyAbs (q : ℚ) : ℚ := if q < 0 then -q else q

namespace Analysis

/-- One OHLCV bar (src/analysis.py works on pandas rows with these fields). -/
structure Bar where
  high : ℚ
  low : ℚ
  close : ℚ
  volume : ℚ
  deriving DecidableEq

/-- The zero bar, used only as the out-of-range default of list indexing
(indices are always in range where it is used). -/
def defaultBar : Bar := ⟨0, 0, 0, 0⟩

/-- Reads the High value of bar i of the window. -/
def hiAt (recent : List Bar) (i : ℕ) : ℚ := (recent.getD i defaultBar).high

/-- Reads the Low value of bar i of the window. -/
def loAt (recent : List Bar) (i : ℕ) : ℚ := (recent.getD i defaultBar).low

/-- Swing-high test of `find_support_resistance` (analysis.py lines 151-157):
bar `i` (with two full bars on each side) whose high strictly exceeds the
highs of the two bars before and after it. -/
def isSwingHigh (recent : List Bar) (i : ℕ) : Bool :=
  decide (2 ≤ i) && decide (i + 2 < recent.length) &&
  decide (hiAt recent (i-1) < hiAt recent i) &&
  decide (hiAt recent (i-2) < hiAt recent i) &&
  decide (hiAt recent (i+1) < hiAt recent i) &&
  decide (hiAt recent (i+2) < hiAt recent i)

/-- Swing-low test of `find_support_resistance` (analysis.py lines 160-164). -/
def isSwingLow (recent : List Bar) (i : ℕ) : Bool :=
  decide (2 ≤ i) && decide (i + 2 < recent.length) &&
  decide (loAt recent i < loAt recent (i-1)) &&
  decide (loAt recent i < loAt recent (i-2)) &&
  decide (loAt recent i < loAt recent (i+1)) &&
  decide (loAt recent i < loAt recent (i+2))

/-- The list `highs` accumulated by the loop in `find_support_resistance`,
in chronological order. -/
def swingHighs (recent : List Bar) : List ℚ :=
  ((List.range recent.length).filter (fun i => isSwingHigh recent i)).map (hiAt recent)

/-- The list `lows` accumulated by the loop in `find_support_resistance`. -/
def swingLows (recent : List Bar) : List ℚ :=
  ((List.range recent.length).filter (fun i => isSwingLow recent i)).map (loAt recent)

/-- Embeds `sorted([h for h in highs if h > current_price])` over the last 60 bars:
the ascending list of swing highs strictly above the current price. -/
def resistancesOf (df : List Bar) (current_price : ℚ) : List ℚ :=
  List.insertionSort (fun a b => a ≤ b)
    ((swingHighs (df.drop (df.length - 60))).filter (fun h => decide (current_price < h)))

/-- Embeds `sorted([l for l in lows if l < current_price], reverse=True)`:
the descending list of swing lows strictly below the current price. -/
def supportsOf (df : List Bar) (current_price : ℚ) : List ℚ :=
  List.insertionSort (fun a b => b ≤ a)
    ((swingLows (df.drop (df.length - 60))).filter (fun l => decide (l < current_price)))

/-- The level dictionary returned by `find_support_resistance`. -/
structure LevelSet where
  support_1 : ℚ
  support_2 : ℚ
  resistance_1 : ℚ
  resistance_2 : ℚ
  deriving DecidableEq

/-- Embeds `find_support_resistance(df, current_price)` (analysis.py lines 143-185).
The VWAP column computed in the source is never consumed and is omitted. -/
def find_support_resistance (df : List Bar) (current_price : ℚ) : LevelSet :=
  let supports := supportsOf df current_price
  let support_1 := supports.headD (current_price * (95/100))
  let support_2 := (supports.drop 1).headD (support_1 * (97/100))
  let resistances := resistancesOf df current_price
  let resistance_1 := resistances.headD (current_price * (105/100))
  let resistance_2 := (resistances.drop 1).headD (resistance_1 * (103/100))
  ⟨support_1, support_2, resistance_1, resistance_2⟩

/-- Embeds `analyze_trend` (analysis.py lines 188-242), applied to the latest
indicator snapshot values it reads from the frame.  Returns the clamped
score and the reasons list (numeric string formatting elided). -/
def analyze_trend (price sma_20 sma_50 sma_200 adx : ℚ) : ℚ × List String :=
  let p1 : ℚ × List String :=
    if price > sma_20 then (10, [("Price above 20-day MA")])
    else (-10, [("Price below 20-day MA")])
  let p2 : ℚ × List String :=
    if price > sma_50 then (10, [("Price above 50-day MA")])
    else (-10, [("Price below 50-day MA")])
  let p3 : ℚ × List String :=
    if price > sma_200 then (10, [("Price above 200-day MA (long-term uptrend)")])
    else (-10, [("Price below 200-day MA (long-term downtrend)")])
  let p4 : ℚ × List String :=
    if sma_20 > sma_50 ∧ sma_50 > sma_200 then (15, [("MAs aligned bullish (20 > 50 > 200)")])
    else if sma_20 < sma_50 ∧ sma_50 < sma_200 then (-15, [("MAs aligned bearish (20 < 50 < 200)")])
    else (0, [])
  let raw := p1.1 + p2.1 + p3.1 + p4.1
  let scaled : ℚ × List String :=
    if adx > 25 then (raw * (12/10), [("Strong trend")])
    else if adx < 20 then (raw * (7/10), [("Weak or choppy trend")])
    else (raw, [])
  (min (max scaled.1 (-50)) 50, p1.2 ++ p2.2 ++ p3.2 ++ p4.2 ++ scaled.2)

/-- Embeds `analyze_momentum` (analysis.py lines 245-292), applied to the latest
and previous snapshot values it reads. -/
def analyze_momentum (rsi macd macd_signal macd_hist prev_macd_hist : ℚ) : ℚ × List String :=
  let p1 : ℚ × List String :=
    if rsi < 30 then (15, [("RSI oversold - potential bounce")])
    else if rsi > 70 then (-15, [("RSI overbought - potential pullback")])
    else if 40 ≤ rsi ∧ rsi ≤ 60 then (0, [("RSI neutral")])
    else if rsi > 50 then (5, [("RSI bullish")])
    else (-5, [("RSI bearish")])
  let p2 : ℚ × List String :=
    if macd > macd_signal then (10, [("MACD above signal (bullish)")])
    else (-10, [("MACD below signal (bearish)")])
  let p3 : ℚ × List String :=
    if macd_hist > prev_macd_hist then (5, [("MACD histogram increasing")])
    else (-5, [("MACD histogram decreasing")])
  (min (max (p1.1 + p2.1 + p3.1) (-30)) 30, p1.2 ++ p2.2 ++ p3.2)

/-- Embeds `analyze_volume` (analysis.py lines 295-319): relative volume and the
day's price change are the values the source reads from the frame. -/
def analyze_volume (rel_vol price_change : ℚ) : ℚ × List String :=
  let p : ℚ × List String :=
    if rel_vol > 3/2 then
      if price_change > 0 then (10, [("High volume on up day - accumulation")])
      else (-10, [("High volume on down day - distribution")])
    else if rel_vol < 7/10 then (0, [("Low volume - lack of conviction")])
    else (0, [("Normal volume")])
  (min (max p.1 (-10)) 10, p.2)

/-- Result triple of `analyze_volatility`: score, reasons, regime label. -/
structure VolResult where
  score : ℚ
  reasons : List String
  regime : String
  deriving DecidableEq

/-- Embeds `analyze_volatility` (analysis.py lines 322-358): the Bollinger position
picks the score and base regime; a band-width squeeze only overrides the
regime label (and appends a reason); the ATR context reason is appended
last.  Note the returned score is never clamped. -/
def analyze_volatility (bb_position bb_width atr price bb_width_mean50 : ℚ) : VolResult :=
  let base : VolResult :=
    if bb_position < 1/10 then
      ⟨10, [("Near lower Bollinger Band - potential mean reversion")], ("oversold")⟩
    else if bb_position > 9/10 then
      ⟨-5, [("Near upper Bollinger Band - extended")], ("overbought")⟩
    else
      ⟨0, [("Mid-range in Bollinger Bands")], ("normal")⟩
  let squeezed : VolResult :=
    if bb_width < bb_width_mean50 * (8/10) then
      ⟨base.score, base.reasons ++ [("Bollinger Band squeeze - big move coming")], ("squeeze")⟩
    else base
  ⟨squeezed.score, squeezed.reasons ++ [("Daily ATR context")], squeezed.regime⟩

/-- The dataclass returned by `generate_signal`. -/
structure SignalScore where
  ticker : String
  score : ℚ
  trend_score : ℚ
  momentum_score : ℚ
  volume_score : ℚ
  volatility_score : ℚ
  signal : String
  entry_type : String
  entry_price : ℚ
  stop_loss : ℚ
  target_1 : ℚ
  target_2 : ℚ
  risk_reward : ℚ
  reasons : List String
  warnings : List String
  deriving DecidableEq

/-- The inputs that `generate_signal` (analysis.py lines 382-496) has in
hand once data fetching, the indicator pipeline, the four scorers, the
level finder and the market-context fetch have run: the latest close and
ATR, the latest SMA20, the four sub-scores with their reasons, the
volatility regime, the two support levels, and the risk-on flag. -/
structure SigInputs where
  ticker : String
  price : ℚ
  atr : ℚ
  sma_20 : ℚ
  trend_score : ℚ
  momentum_score : ℚ
  volume_score : ℚ
  volatility_score : ℚ
  vol_regime : String
  trend_reasons : List String
  momentum_reasons : List String
  volume_reasons : List String
  volatility_reasons : List String
  support_1 : ℚ
  support_2 : ℚ
  risk_on : Bool
  deriving DecidableEq

/-- Computes `total_score` after the market-context adjustment (lines 405-409). -/
def totalScore (inp : SigInputs) : ℚ :=
  let t := inp.trend_score + inp.momentum_score + inp.volume_score + inp.volatility_score
  if inp.risk_on then t else t - 10

/-- The combined reasons list before the branch-specific appends (line 413;
the risk-off reason is appended to the trend reasons at line 410). -/
def baseReasons (inp : SigInputs) : List String :=
  (if inp.risk_on then inp.trend_reasons else inp.trend_reasons ++ [("Risk-off market")])
    ++ inp.momentum_reasons ++ inp.volume_reasons ++ inp.volatility_reasons

/-- The signal/entry decision produced by the threshold chain. -/
structure Classified where
  signal : String
  entry_type : String
  entry_price : ℚ
  reasons : List String
  warnings : List String
  deriving DecidableEq

/-- The classification chain of `generate_signal` (lines 416-458),
first match wins. -/
def classify (inp : SigInputs) : Classified :=
  let ts := totalScore inp
  let rs := baseReasons inp
  if ts ≥ 40 then
    if inp.price < inp.sma_20 then
      ⟨("BUY_NOW"), ("pullback"), inp.price,
        rs ++ [("Strong bullish setup at pullback - buy now")], []⟩
    else
      ⟨("BUY_PULLBACK"), ("pullback"), inp.support_1,
        rs ++ [("Wait for pullback to support")], []⟩
  else if ts ≥ 20 then
    if inp.vol_regime = ("oversold") then
      ⟨("BUY_NOW"), ("mean_reversion"), inp.price,
        rs ++ [("Oversold bounce setup")], []⟩
    else
      ⟨("BUY_PULLBACK"), ("pullback"), inp.support_1,
        rs ++ [("Moderately bullish - wait for support")], []⟩
  else if ts ≤ -40 then
    ⟨("SELL"), ("breakdown"), inp.price,
      rs ++ [("Strong bearish - avoid or short")], []⟩
  else if ts ≤ -20 then
    ⟨("WAIT"), ("none"), inp.support_2, rs,
      [("Bearish bias - wait for better setup")]⟩
  else
    ⟨("WAIT"), ("none"), inp.support_1, rs,
      [("No clear edge - patience")]⟩

/-- Tests `signal in ["BUY_NOW", "BUY_PULLBACK"]` (line 462). -/
def isBuySignal (s : String) : Bool := s == ("BUY_NOW") || s == ("BUY_PULLBACK")

/-- Computes `stop_loss` (lines 463/467). -/
def stopLossOf (inp : SigInputs) : ℚ :=
  if isBuySignal (classify inp).signal then (classify inp).entry_price - inp.atr * (3/2)
  else inp.price + inp.atr * (3/2)

/-- Computes `target_1` (lines 464/468). -/
def target1Of (inp : SigInputs) : ℚ :=
  if isBuySignal (classify inp).signal then (classify inp).entry_price + inp.atr * 3
  else inp.price - inp.atr * 3

/-- Computes `target_2` (lines 465/469). -/
def target2Of (inp : SigInputs) : ℚ :=
  if isBuySignal (classify inp).signal then (classify inp).entry_price + inp.atr * (9/2)
  else inp.price - inp.atr * (9/2)

/-- Computes `risk = abs(entry_price - stop_loss)` (line 471). -/
def rawRisk (inp : SigInputs) : ℚ := pyAbs ((classify inp).entry_price - stopLossOf inp)

/-- Computes `reward = abs(target_1 - entry_price)` (line 472). -/
def rawReward (inp : SigInputs) : ℚ := pyAbs (target1Of inp - (classify inp).entry_price)

/-- Computes `risk_reward = reward / risk if risk > 0 else 0` (line 473): the ratio
is defined as 0 instead of dividing by a non-positive risk. -/
def rawRR (inp : SigInputs) : ℚ :=
  if rawRisk inp > 0 then rawReward inp / rawRisk inp else 0

/-- The downgrade rule (lines 476-478): a BUY_NOW whose risk/reward is
below 1.8 becomes BUY_PULLBACK. -/
def finalSignal (inp : SigInputs) : String :=
  if rawRR inp < 9/5 ∧ (classify inp).signal = ("BUY_NOW") then ("BUY_PULLBACK")
  else (classify inp).signal

/-- The warnings list after the downgrade rule (line 478 appends one). -/
def finalWarnings (inp : SigInputs) : List String :=
  if rawRR inp < 9/5 ∧ (classify inp).signal = ("BUY_NOW") then
    (classify inp).warnings ++ [("R:R too low - wait for pullback to improve entry")]
  else (classify inp).warnings

/-- The SignalScore assembled and returned by `generate_signal`
(lines 480-496), with the 2-decimal rounding of the price fields. -/
def generate_signal_core (inp : SigInputs) : SignalScore where
  ticker := inp.ticker
  score := totalScore inp
  trend_score := inp.trend_score
  momentum_score := inp.momentum_score
  volume_score := inp.volume_score
  volatility_score := inp.volatility_score
  signal := finalSignal inp
  entry_type := (classify inp).entry_type
  entry_price := pyRound ((classify inp).entry_price) 2
  stop_loss := pyRound (stopLossOf inp) 2
  target_1 := pyRound (target1Of inp) 2
  target_2 := pyRound (target2Of inp) 2
  risk_reward := pyRound (rawRR inp) 2
  reasons := (classify inp).reasons
  warnings := finalWarnings inp

end Analysis

namespace Portfolio

/-- An open position (src/portfolio.py dataclass `Position`). -/
structure Position where
  id : String
  ticker : String
  contract : String
  option_type : String
  strike : ℚ
  expiration : String
  entry_date : String
  entry_price : ℚ
  contracts : ℤ
  cost_basis : ℚ
  target_price : ℚ
  stop_price : ℚ
  stock_target : ℚ
  current_price : ℚ
  current_value : ℚ
  pnl_dollars : ℚ
  pnl_percent : ℚ
  status : String
  deriving DecidableEq

/-- A closed trade (src/portfolio.py dataclass `ClosedTrade`). -/
structure ClosedTrade where
  id : String
  ticker : String
  contract : String
  option_type : String
  entry_date : String
  entry_price : ℚ
  exit_date : String
  exit_price : ℚ
  contracts : ℤ
  pnl_dollars : ℚ
  pnl_percent : ℚ
  result : String
  exit_reason : String
  deriving DecidableEq

/-- The ledger's persisted state: the open set (portfolio.json) and the
closed-trade history (trade_history.json). -/
structure LedgerState where
  positions : List Position
  history : List ClosedTrade
  deriving DecidableEq

/-- Embeds `generate_trade_id` (portfolio.py line 115), which formats
`datetime.now()` with `"%Y%m%d%H%M%S"` — a seconds-resolution string.
We model the clock as microseconds since the epoch; the formatted id is
determined exactly by (and is injective in) the timestamp truncated to
whole seconds, which this division computes. -/
def generate_trade_id (now_micros : ℕ) : ℕ := now_micros / 1000000

/-- Embeds `open_position` (portfolio.py lines 149-191).  The generated id and
the `datetime.now()` entry date are passed as explicit arguments.  The new
position is appended at the end of the open set. -/
def open_position (ticker contract option_type : String) (strike : ℚ) (expiration : String)
    (entry_price : ℚ) (contracts : ℤ) (target_price stop_price stock_target : ℚ)
    (new_id entry_date : String) (st : LedgerState) : Position × LedgerState :=
  let position : Position :=
    { id := new_id
      ticker := ticker
      contract := contract
      option_type := option_type
      strike := strike
      expiration := expiration
      entry_date := entry_date
      entry_price := entry_price
      contracts := contracts
      cost_basis := entry_price * (contracts : ℚ) * 100
      target_price := target_price
      stop_price := stop_price
      stock_target := stock_target
      current_price := entry_price
      current_value := entry_price * (contracts : ℚ) * 100
      pnl_dollars := 0
      pnl_percent := 0
      status := ("OPEN") }
  (position, { positions := st.positions ++ [position], history := st.history })

/-- The search-and-pop loop of `close_position` (lines 199-203): remove
the first position whose id matches, returning it and the remaining list. -/
def popById : List Position → String → Option (Position × List Position)
  | [], _ => none
  | p :: rest, pid =>
    if p.id = pid then some (p, rest)
    else
      match popById rest pid with
      | none => none
      | some (q, rest2) => some (q, p :: rest2)

/-- Embeds `close_position` (portfolio.py lines 194-243).  The exit date is
passed explicitly.  When the id is not in the open set the source prints
"Position ... not found" and returns None without saving either file: we
model that as an error value naming the id, paired with the unchanged
state.  On success it returns the ClosedTrade and the state with the
position removed and the trade appended to history. -/
def close_position (position_id : String) (exit_price : ℚ) (exit_reason exit_date : String)
    (st : LedgerState) : Except String ClosedTrade × LedgerState :=
  match popById st.positions position_id with
  | none => (Except.error (("Position ") ++ position_id ++ (" not found")), st)
  | some (position, rest) =>
    let exit_value := exit_price * (position.contracts : ℚ) * 100
    let pnl_dollars := exit_value - position.cost_basis
    let pnl_percent := pnl_dollars / position.cost_basis * 100
    let result : String :=
      if pnl_dollars > 0 then ("WIN") else if pnl_dollars < 0 then ("LOSS") else ("BREAKEVEN")
    let closed : ClosedTrade :=
      { id := position.id
        ticker := position.ticker
        contract := position.contract
        option_type := position.option_type
        entry_date := position.entry_date
        entry_price := position.entry_price
        exit_date := exit_date
        exit_price := exit_price
        contracts := position.contracts
        pnl_dollars := pyRound pnl_dollars 2
        pnl_percent := pyRound pnl_percent 2
        result := result
        exit_reason := exit_reason }
    (Except.ok closed, { positions := rest, history := st.history ++ [closed] })

/-- One alert dictionary appended by `update_positions`. -/
structure PosAlert where
  pos : Position
  alert_type : String
  message : String
  deriving DecidableEq

/-- The intrinsic-value estimate of `update_positions` (lines 284-287). -/
def intrinsicValue (pos : Position) (stock_price : ℚ) : ℚ :=
  if pos.option_type = ("call") then max 0 (stock_price - pos.strike)
  else max 0 (pos.strike - stock_price)

/-- Price resolution of `update_positions` (lines 276-292): use the fetched
option price; if unavailable estimate from the stock price with a floor;
if that also fails keep the old price. -/
def resolvePrice (opt_price stock_price : Option ℚ) (pos : Position) : ℚ :=
  match opt_price with
  | some p => p
  | none =>
    match stock_price with
    | some sp => max (intrinsicValue pos sp * (9/10)) (pos.entry_price * (1/10))
    | none => pos.current_price

/-- The per-position body of the `update_positions` loop (lines 274-322):
recompute the four valuation fields and collect target/stop/expiry alerts
without closing anything.  `days_to_exp` stands for the computed
days-to-expiration. -/
def update_one (opt_price stock_price : Option ℚ) (days_to_exp : ℤ) (pos : Position) :
    Position × List PosAlert :=
  let price := resolvePrice opt_price stock_price pos
  let current_value := pyRound (price * (pos.contracts : ℚ) * 100) 2
  let pnl_dollars := pyRound (current_value - pos.cost_basis) 2
  let pos' : Position :=
    { pos with
      current_price := pyRound price 2
      current_value := current_value
      pnl_dollars := pnl_dollars
      pnl_percent := pyRound (pnl_dollars / pos.cost_basis * 100) 2 }
  let hitAlerts : List PosAlert :=
    if price ≥ pos.target_price then [⟨pos', ("TARGET_HIT"), ("TARGET HIT")⟩]
    else if price ≤ pos.stop_price then [⟨pos', ("STOP_HIT"), ("STOP HIT")⟩]
    else []
  let expAlerts : List PosAlert :=
    if days_to_exp ≤ 5 then [⟨pos', ("EXPIRING_SOON"), ("EXPIRING")⟩] else []
  (pos', hitAlerts ++ expAlerts)

/-- Embeds `update_positions` (portfolio.py lines 269-325) over an explicit open
set, with the external option-price fetch, stock-price fetch and
days-to-expiration supplied as oracles.  Returns the updated open set (same
positions, same order) and the collected alerts. -/
def update_positions (optO stockO : Position → Option ℚ) (dteO : Position → ℤ) :
    List Position → List Position × List PosAlert
  | [] => ([], [])
  | p :: rest =>
    ((update_one (optO p) (stockO p) (dteO p) p).1 ::
        (update_positions optO stockO dteO rest).1,
      (update_one (optO p) (stockO p) (dteO p) p).2 ++
        (update_positions optO stockO dteO rest).2)

/-- The fourteen entry fields of a Position — everything except the four
valuation fields recomputed by `update_positions`. -/
structure EntryFields where
  id : String
  ticker : String
  contract : String
  option_type : String
  strike : ℚ
  expiration : String
  entry_date : String
  entry_price : ℚ
  contracts : ℤ
  cost_basis : ℚ
  target_price : ℚ
  stop_price : ℚ
  stock_target : ℚ
  status : String
  deriving DecidableEq

/-- Projection of a Position onto its entry fields. -/
def Position.entryFields (p : Position) : EntryFields :=
  ⟨p.id, p.ticker, p.contract, p.option_type, p.strike, p.expiration, p.entry_date,
    p.entry_price, p.contracts, p.cost_basis, p.target_price, p.stop_price,
    p.stock_target, p.status⟩

end Portfolio

namespace OptionsTrades

/-- The confidence tier assigned by `find_best_call`
(options_trades.py lines 186-191): based on the rounded risk/reward and
the signal's composite score. -/
def find_best_call_confidence (rr score : ℚ) : String :=
  if rr ≥ 2 ∧ score ≥ 40 then ("HIGH")
  else if rr ≥ 3/2 ∧ score ≥ 20 then ("MEDIUM")
  else ("LOW")

/-- The confidence tier assigned by `find_best_put`
(options_trades.py line 288): based on the rounded risk/reward only —
the signal score is not consulted. -/
def find_best_put_confidence (rr : ℚ) : String :=
  if rr ≥ 2 then ("HIGH") else if rr ≥ 3/2 then ("MEDIUM") else ("LOW")

/-- Modelled from the spec's words for comparison (spec section 4.5):
"confidence = HIGH if risk_reward ≥ 2 and signal score ≥ 40, MEDIUM if
≥ 1.5 and ≥ 20, else LOW". -/
def selector_confidence_spec (rr score : ℚ) : String :=
  if rr ≥ 2 ∧ score ≥ 40 then ("HIGH")
  else if rr ≥ 3/2 ∧ score ≥ 20 then ("MEDIUM")
  else ("LOW")

end OptionsTrades

namespace Analysis

/-- A concrete 8-bar window whose two swing highs (bars 2 and 5) carry the
same high price 5. -/
def exampleBars : List Bar :=
  [⟨1, 0, 1, 1⟩, ⟨1, 0, 1, 1⟩, ⟨5, 0, 1, 1⟩, ⟨1, 0, 1, 1⟩,
    ⟨1, 0, 1, 1⟩, ⟨5, 0, 1, 1⟩, ⟨1, 0, 1, 1⟩, ⟨1, 0, 1, 1⟩]

/-- Concrete signal inputs landing in the strong-bullish BUY_NOW branch
with ATR 1 (risk/reward 2). -/
def exampleBuyNowInputs : SigInputs where
  ticker := ("NVDA")
  price := 100
  atr := 1
  sma_20 := 101
  trend_score := 50
  momentum_score := 0
  volume_score := 0
  volatility_score := 0
  vol_regime := ("normal")
  trend_reasons := []
  momentum_reasons := []
  volume_reasons := []
  volatility_reasons := []
  support_1 := 95
  support_2 := 90
  risk_on := true

/-- Concrete signal inputs with ATR 0 in the neutral WAIT branch whose
entry equals the current price, so `risk = |entry - stop| = 0`. -/
def exampleZeroRiskInputs : SigInputs where
  ticker := ("MU")
  price := 100
  atr := 0
  sma_20 := 99
  trend_score := 0
  momentum_score := 0
  volume_score := 0
  volatility_score := 0
  vol_regime := ("normal")
  trend_reasons := []
  momentum_reasons := []
  volume_reasons := []
  volatility_reasons := []
  support_1 := 100
  support_2 := 90
  risk_on := true

end Analysis

namespace Portfolio

/-- A concrete open position used to exercise the ledger operations. -/
def examplePosition : Position where
  id := ("20240101120000")
  ticker := ("NVDA")
  contract := ("NVDA 02/21 180 Call")
  option_type := ("call")
  strike := 180
  expiration := ("2024-02-21")
  entry_date := ("2024-01-01 12:00")
  entry_price := 5
  contracts := 2
  cost_basis := 1000
  target_price := 8
  stop_price := 5/2
  stock_target := 200
  current_price := 5
  current_value := 1000
  pnl_dollars := 0
  pnl_percent := 0
  status := ("OPEN")

/-- A concrete ledger state holding one open position and no history. -/
def exampleLedger : LedgerState where
  positions := [examplePosition]
  history := []

end Portfolio

open Analysis Portfolio OptionsTrades

theorem floor_le_roundHalfEven (q : ℚ) : ⌊q⌋ ≤ roundHalfEven q := by
  unfold roundHalfEven
  split_ifs <;> omega

theorem le_pyRound2_of_le (q : ℚ) (h : 9/5 ≤ q) : 9/5 ≤ pyRound q 2 := by
  have hfl : (180 : ℤ) ≤ ⌊q * 10 ^ 2⌋ := by
    rw [Int.le_floor]
    push_cast
    nlinarith
  have hr : (180 : ℤ) ≤ roundHalfEven (q * 10 ^ 2) :=
    le_trans hfl (floor_le_roundHalfEven _)
  unfold pyRound
  rw [le_div_iff₀ (by norm_num : (0:ℚ) < 10 ^ 2)]
  calc (9:ℚ)/5 * 10 ^ 2 ≤ 180 := by norm_num
    _ ≤ _ := by exact_mod_cast hr

theorem pyRound_zero (d : ℕ) : pyRound 0 d = 0 := by
  unfold pyRound roundHalfEven
  norm_num

/-- C1: every SignalScore returned by generate_signal with signal BUY_NOW
carries a risk_reward of at least 1.8; a BUY_NOW whose computed risk/reward
ratio falls below 1.8 is downgraded to BUY_PULLBACK (with a warning
appended) before the SignalScore is assembled, so the invariant holds for
every input. -/
theorem buy_now_risk_reward_at_least (inp : SigInputs)
    (h : (generate_signal_core inp).signal = ("BUY_NOW")) :
    9/5 ≤ (generate_signal_core inp).risk_reward := by
  have hs : finalSignal inp = ("BUY_NOW") := h
  show 9/5 ≤ pyRound (rawRR inp) 2
  apply le_pyRound2_of_le
  unfold finalSignal at hs
  split_ifs at hs with hc
  · exact absurd hs (by decide)
  · have : ¬ rawRR inp < 9/5 := fun hlt => hc ⟨hlt, hs⟩
    linarith [not_lt.mp this]

theorem signal_of_exampleBuyNow :
    (generate_signal_core exampleBuyNowInputs).signal = ("BUY_NOW") := by
  have hcl : classify exampleBuyNowInputs =
      ⟨("BUY_NOW"), ("pullback"), 100,
        [("Strong bullish setup at pullback - buy now")], []⟩ := by
    norm_num [classify, totalScore, baseReasons, exampleBuyNowInputs]
  have hrisk : rawRisk exampleBuyNowInputs = 3/2 := by
    simp only [rawRisk, stopLossOf, hcl, isBuySignal]
    norm_num [exampleBuyNowInputs, pyAbs]
  have hrew : rawReward exampleBuyNowInputs = 3 := by
    simp only [rawReward, target1Of, hcl, isBuySignal]
    norm_num [exampleBuyNowInputs, pyAbs]
  have hrr : rawRR exampleBuyNowInputs = 2 := by
    simp only [rawRR, hrisk, hrew]
    norm_num
  show finalSignal exampleBuyNowInputs = ("BUY_NOW")
  simp only [finalSignal, hrr, hcl]
  norm_num

theorem buy_now_risk_reward_at_least_witness :
    (generate_signal_core exampleBuyNowInputs).signal = ("BUY_NOW") ∧
      9/5 ≤ (generate_signal_core exampleBuyNowInputs).risk_reward :=
  ⟨signal_of_exampleBuyNow,
    buy_now_risk_reward_at_least exampleBuyNowInputs signal_of_exampleBuyNow⟩

/-- C10: the risk/reward computation in generate_signal is total — when the
risk `abs (entry - stop)` is zero (it is an absolute value, so zero is the
only non-positive case), the returned risk_reward is defined as 0 instead
of dividing by zero. -/
theorem risk_reward_total_on_zero_risk (inp : SigInputs)
    (h : rawRisk inp = 0) :
    (generate_signal_core inp).risk_reward = 0 := by
  show pyRound (rawRR inp) 2 = 0
  unfold rawRR
  rw [h]
  norm_num [pyRound_zero]

theorem rawRisk_of_exampleZeroRisk : rawRisk exampleZeroRiskInputs = 0 := by
  have hcl : classify exampleZeroRiskInputs =
      ⟨("WAIT"), ("none"), 100, [], [("No clear edge - patience")]⟩ := by
    norm_num [classify, totalScore, baseReasons, exampleZeroRiskInputs]
  simp only [rawRisk, stopLossOf, hcl, isBuySignal]
  norm_num [exampleZeroRiskInputs, pyAbs]

theorem risk_reward_total_on_zero_risk_witness :
    rawRisk exampleZeroRiskInputs = 0 ∧
      (generate_signal_core exampleZeroRiskInputs).risk_reward = 0 :=
  ⟨rawRisk_of_exampleZeroRisk,
    risk_reward_total_on_zero_risk exampleZeroRiskInputs rawRisk_of_exampleZeroRisk⟩

theorem abs_clamp_le (x a : ℚ) (ha : 0 ≤ a) : |min (max x (-a)) a| ≤ a := by
  rw [abs_le]
  refine ⟨le_min (le_max_right x (-a)) (by linarith), min_le_right _ _⟩

/-- C7: every factor sub-score is bounded — trend in [-50, 50], momentum in
[-30, 30], volume in [-10, 10], volatility in [-10, 10] — so the composite
score before the macro risk-off adjustment has absolute value at most 120
(in fact at most 100). -/
theorem factor_scores_bounded
    (price sma_20 sma_50 sma_200 adx rsi macd macd_signal macd_hist prev_macd_hist
      rel_vol price_change bb_position bb_width atr bprice bb_width_mean50 : ℚ) :
    |(analyze_trend price sma_20 sma_50 sma_200 adx).1| ≤ 50 ∧
    |(analyze_momentum rsi macd macd_signal macd_hist prev_macd_hist).1| ≤ 30 ∧
    |(analyze_volume rel_vol price_change).1| ≤ 10 ∧
    |(analyze_volatility bb_position bb_width atr bprice bb_width_mean50).score| ≤ 10 ∧
    |(analyze_trend price sma_20 sma_50 sma_200 adx).1 +
        (analyze_momentum rsi macd macd_signal macd_hist prev_macd_hist).1 +
        (analyze_volume rel_vol price_change).1 +
        (analyze_volatility bb_position bb_width atr bprice bb_width_mean50).score| ≤ 120 := by
  have ht : |(analyze_trend price sma_20 sma_50 sma_200 adx).1| ≤ 50 := by
    unfold analyze_trend
    exact abs_clamp_le _ 50 (by norm_num)
  have hm : |(analyze_momentum rsi macd macd_signal macd_hist prev_macd_hist).1| ≤ 30 := by
    unfold analyze_momentum
    exact abs_clamp_le _ 30 (by norm_num)
  have hv : |(analyze_volume rel_vol price_change).1| ≤ 10 := by
    unfold analyze_volume
    exact abs_clamp_le _ 10 (by norm_num)
  have hvol :
      |(analyze_volatility bb_position bb_width atr bprice bb_width_mean50).score| ≤ 10 := by
    unfold analyze_volatility
    split_ifs <;> simp <;> norm_num
  refine ⟨ht, hm, hv, hvol, ?_⟩
  have h1 := abs_add
    ((analyze_trend price sma_20 sma_50 sma_200 adx).1 +
      (analyze_momentum rsi macd macd_signal macd_hist prev_macd_hist).1 +
      (analyze_volume rel_vol price_change).1)
    ((analyze_volatility bb_position bb_width atr bprice bb_width_mean50).score)
  have h2 := abs_add
    ((analyze_trend price sma_20 sma_50 sma_200 adx).1 +
      (analyze_momentum rsi macd macd_signal macd_hist prev_macd_hist).1)
    ((analyze_volume rel_vol price_change).1)
  have h3 := abs_add
    ((analyze_trend price sma_20 sma_50 sma_200 adx).1)
    ((analyze_momentum rsi macd macd_signal macd_hist prev_macd_hist).1)
  linarith

/-- C9: the volatility sub-score only ever takes the values 10, 0, -5 (no
clamping is applied to it); it is 10 exactly when the Bollinger position is
below 0.1 and -5 exactly when it is above 0.9, 0 otherwise; and the
band-width squeeze override never changes the score (it is independent of
the width and its rolling mean). -/
theorem volatility_score_characterization
    (bb_position bb_width atr price bb_width_mean50 bw2 atr2 price2 m2 : ℚ) :
    ((analyze_volatility bb_position bb_width atr price bb_width_mean50).score = 10 ∨
      (analyze_volatility bb_position bb_width atr price bb_width_mean50).score = 0 ∨
      (analyze_volatility bb_position bb_width atr price bb_width_mean50).score = -5) ∧
    ((analyze_volatility bb_position bb_width atr price bb_width_mean50).score = 10 ↔
      bb_position < 1/10) ∧
    ((analyze_volatility bb_position bb_width atr price bb_width_mean50).score = -5 ↔
      bb_position > 9/10) ∧
    ((analyze_volatility bb_position bb_width atr price bb_width_mean50).score = 0 ↔
      ¬ bb_position < 1/10 ∧ ¬ bb_position > 9/10) ∧
    (analyze_volatility bb_position bb_width atr price bb_width_mean50).score =
      (analyze_volatility bb_position bw2 atr2 price2 m2).score := by
  unfold analyze_volatility
  split_ifs <;> simp_all <;> try norm_num
  all_goals linarith

/-- C5 counterexample: find_best_put assigns HIGH confidence from the
risk/reward alone; at risk_reward 2 with signal score 0 it returns HIGH
while the claimed rule (HIGH only with score at least 40, MEDIUM only with
score at least 20) returns LOW. -/
theorem put_confidence_ignores_score_cex :
    find_best_put_confidence 2 ≠ selector_confidence_spec 2 0 := by
  norm_num [find_best_put_confidence, selector_confidence_spec]
  decide

/-- C5 amended: find_best_call's confidence follows the spec rule exactly
(HIGH iff risk_reward at least 2 and score at least 40, MEDIUM iff at least
1.5 and at least 20, else LOW), but find_best_put ignores the signal score:
its confidence equals the spec rule evaluated as if the score were in the
top band (HIGH iff risk_reward at least 2, MEDIUM iff at least 1.5, else
LOW). -/
theorem selector_confidence_rule (rr score : ℚ) :
    find_best_call_confidence rr score = selector_confidence_spec rr score ∧
      find_best_put_confidence rr = selector_confidence_spec rr 40 := by
  constructor
  · rfl
  · simp only [find_best_put_confidence, selector_confidence_spec,
      eq_true (by norm_num : (40:ℚ) ≤ 40), eq_true (by norm_num : (20:ℚ) ≤ 40),
      ge_iff_le, and_true]

theorem mem_resistancesOf (df : List Bar) (cp x : ℚ)
    (hx : x ∈ resistancesOf df cp) : cp < x := by
  unfold resistancesOf at hx
  rw [List.mem_insertionSort, List.mem_filter] at hx
  exact of_decide_eq_true hx.2

theorem sorted_resistancesOf (df : List Bar) (cp : ℚ) :
    List.Sorted (fun a b : ℚ => a ≤ b) (resistancesOf df cp) :=
  List.sorted_insertionSort _ _

/-- C6 counterexample: an 8-bar window with two swing highs of equal value
5 above the current price 2 yields resistance_1 = resistance_2 = 5, so the
claimed strict inequality resistance_1 < resistance_2 fails. -/
theorem equal_swing_highs_resistance_cex :
    (find_support_resistance exampleBars 2).resistance_1 = 5 ∧
      (find_support_resistance exampleBars 2).resistance_2 = 5 ∧
      ¬ (find_support_resistance exampleBars 2).resistance_1 <
          (find_support_resistance exampleBars 2).resistance_2 := by
  have h1 : (find_support_resistance exampleBars 2).resistance_1 = 5 := by rfl
  have h2 : (find_support_resistance exampleBars 2).resistance_2 = 5 := by rfl
  refine ⟨h1, h2, ?_⟩
  rw [h1, h2]
  norm_num

/-- C6 amended: for a positive current price, the resistances returned by
find_support_resistance satisfy resistance_1 LE resistance_2 (the swing
highs above the price are sorted ascending and the first two taken, and the
fallbacks are current_price times 1.05 and resistance_1 times 1.03); the
inequality is not strict — two equal swing highs above the price give
resistance_1 = resistance_2. -/
theorem resistance_levels_le (df : List Bar) (cp : ℚ) (h : 0 < cp) :
    (find_support_resistance df cp).resistance_1 ≤
      (find_support_resistance df cp).resistance_2 := by
  have e1 : (find_support_resistance df cp).resistance_1 =
      (resistancesOf df cp).headD (cp * (105/100)) := rfl
  have e2 : (find_support_resistance df cp).resistance_2 =
      ((resistancesOf df cp).drop 1).headD
        ((resistancesOf df cp).headD (cp * (105/100)) * (103/100)) := rfl
  rw [e1, e2]
  rcases hrs : resistancesOf df cp with _ | ⟨a, _ | ⟨b, t⟩⟩
  · simp only [List.headD_nil, List.drop_nil]
    nlinarith
  · have ha : cp < a := mem_resistancesOf df cp a (by rw [hrs]; exact List.mem_singleton_self a)
    simp only [List.headD_cons, List.drop_succ_cons, List.drop_zero, List.headD_nil]
    nlinarith
  · have hs := sorted_resistancesOf df cp
    rw [hrs, List.sorted_cons] at hs
    have hab : a ≤ b := hs.1 b (by simp)
    simp only [List.headD_cons, List.drop_succ_cons, List.drop_zero]
    exact hab

theorem resistance_levels_le_witness :
    (0:ℚ) < 2 ∧
      (find_support_resistance exampleBars 2).resistance_1 ≤
        (find_support_resistance exampleBars 2).resistance_2 :=
  ⟨by norm_num, resistance_levels_le exampleBars 2 (by norm_num)⟩

/-- C2: the id generated by generate_trade_id is the clock truncated to
whole seconds, so two open_position calls inside the same millisecond (here
500 and 900 microseconds past the same epoch millisecond 1730000000000) are
distinct instants in the same millisecond and receive the SAME id — the
claimed uniqueness fails; this also contradicts the function's own
docstring "Generate unique trade ID". -/
theorem trade_id_same_millisecond_collision :
    generate_trade_id 1730000000000500 = generate_trade_id 1730000000000900 ∧
      (1730000000000500 : ℕ) / 1000 = (1730000000000900 : ℕ) / 1000 ∧
      (1730000000000500 : ℕ) ≠ (1730000000000900 : ℕ) := by
  refine ⟨?_, by norm_num, by norm_num⟩
  show (1730000000000500 : ℕ) / 1000000 = (1730000000000900 : ℕ) / 1000000
  norm_num

theorem popById_eq_none (ps : List Position) (pid : String)
    (h : pid ∉ ps.map Position.id) : popById ps pid = none := by
  induction ps with
  | nil => rfl
  | cons p rest ih =>
    simp only [List.map_cons, List.mem_cons, not_or] at h
    have hne : ¬ p.id = pid := fun he => h.1 he.symm
    simp only [popById, if_neg hne, ih h.2]

theorem popById_append_fresh (ps : List Position) (pos : Position) (pid : String)
    (h : pid ∉ ps.map Position.id) (hpos : pos.id = pid) :
    popById (ps ++ [pos]) pid = some (pos, ps) := by
  induction ps with
  | nil => simp [popById, hpos]
  | cons p rest ih =>
    simp only [List.map_cons, List.mem_cons, not_or] at h
    have hne : ¬ p.id = pid := fun he => h.1 he.symm
    simp only [List.cons_append, popById, if_neg hne, List.append_eq, ih h.2]

theorem filter_id_fresh (hs : List ClosedTrade) (pid : String)
    (h : pid ∉ hs.map ClosedTrade.id) :
    hs.filter (fun t => t.id == pid) = [] := by
  induction hs with
  | nil => rfl
  | cons t rest ih =>
    simp only [List.map_cons, List.mem_cons, not_or] at h
    have hne : (t.id == pid) = false := by
      rw [beq_eq_false_iff_ne]
      exact fun he => h.1 he.symm
    simp only [List.filter_cons, hne]
    exact ih h.2

/-- C3: closing a position whose id is not in the open set yields an
explicit error that names the id and the operation ("Position ... not
found"), and leaves the ledger state — the open set and the trade
history — unchanged. -/
theorem close_position_unknown_id_error (position_id : String) (exit_price : ℚ)
    (exit_reason exit_date : String) (st : LedgerState)
    (h : position_id ∉ st.positions.map Position.id) :
    close_position position_id exit_price exit_reason exit_date st =
      (Except.error (("Position ") ++ position_id ++ (" not found")), st) := by
  unfold close_position
  rw [popById_eq_none st.positions position_id h]

theorem close_position_unknown_id_error_witness :
    (("missing") ∉ exampleLedger.positions.map Position.id) ∧
      close_position ("missing") 3 ("MANUAL") ("2024-02-01 10:00") exampleLedger =
        (Except.error (("Position ") ++ ("missing") ++ (" not found")), exampleLedger) :=
  have h : ("missing") ∉ exampleLedger.positions.map Position.id := by
    simp [exampleLedger, examplePosition]
  ⟨h, close_position_unknown_id_error ("missing") 3 ("MANUAL") ("2024-02-01 10:00")
    exampleLedger h⟩

/-- C4: for a positive entry price p and a positive contract count c,
open_position followed immediately by close_position at the same price with
reason MANUAL yields a ClosedTrade with pnl_dollars 0 and result BREAKEVEN;
the position is removed from the open set (which returns to its previous
contents) and its id appears exactly once in the history. -/
theorem open_close_round_trip_breakeven
    (ticker contract option_type expiration new_id d1 d2 : String)
    (strike target_price stop_price stock_target : ℚ)
    (p : ℚ) (c : ℤ) (st : LedgerState)
    (hp : 0 < p) (hc : 0 < c)
    (hfresh_open : new_id ∉ st.positions.map Position.id)
    (hfresh_hist : new_id ∉ st.history.map ClosedTrade.id) :
    ∃ ct : ClosedTrade,
      close_position new_id p ("MANUAL") d2
          (open_position ticker contract option_type strike expiration p c
            target_price stop_price stock_target new_id d1 st).2
        = (Except.ok ct, ⟨st.positions, st.history ++ [ct]⟩) ∧
      ct.pnl_dollars = 0 ∧ ct.result = ("BREAKEVEN") ∧ ct.id = new_id ∧
      ((st.history ++ [ct]).filter (fun t => t.id == new_id)).length = 1 := by
  have hpop : popById ((open_position ticker contract option_type strike expiration p c
        target_price stop_price stock_target new_id d1 st).2).positions new_id =
      some ((open_position ticker contract option_type strike expiration p c
        target_price stop_price stock_target new_id d1 st).1, st.positions) :=
    popById_append_fresh st.positions _ new_id hfresh_open rfl
  have h1 : ((open_position ticker contract option_type strike expiration p c
      target_price stop_price stock_target new_id d1 st).1).contracts = c := rfl
  have h2 : ((open_position ticker contract option_type strike expiration p c
      target_price stop_price stock_target new_id d1 st).1).cost_basis =
      p * (c:ℚ) * 100 := rfl
  have h3 : ((open_position ticker contract option_type strike expiration p c
      target_price stop_price stock_target new_id d1 st).1).id = new_id := rfl
  unfold close_position
  rw [hpop]
  simp only [h1, h2, h3, sub_self, gt_iff_lt, lt_self_iff_false, if_false,
    zero_div, zero_mul, pyRound_zero]
  refine ⟨_, rfl, rfl, rfl, rfl, ?_⟩
  rw [List.filter_append, filter_id_fresh st.history new_id hfresh_hist]
  simp

theorem open_close_round_trip_breakeven_witness :
    (0:ℚ) < 5 ∧ (0:ℤ) < 2 ∧
      (("T1") ∉ (LedgerState.mk [] []).positions.map Position.id) ∧
      (("T1") ∉ (LedgerState.mk [] []).history.map ClosedTrade.id) ∧
      (∃ ct : ClosedTrade,
        close_position ("T1") 5 ("MANUAL") ("2024-01-02 10:00")
            (open_position ("NVDA") ("NVDA 02/21 180 Call") ("call") 180 ("2024-02-21")
              5 2 8 (5/2) 200 ("T1") ("2024-01-01 12:00") (LedgerState.mk [] [])).2
          = (Except.ok ct, ⟨(LedgerState.mk [] []).positions,
              (LedgerState.mk [] []).history ++ [ct]⟩) ∧
        ct.pnl_dollars = 0 ∧ ct.result = ("BREAKEVEN") ∧ ct.id = ("T1") ∧
        (((LedgerState.mk [] []).history ++ [ct]).filter
            (fun t => t.id == ("T1"))).length = 1) :=
  ⟨by norm_num, by norm_num, by simp, by simp,
    open_close_round_trip_breakeven ("NVDA") ("NVDA 02/21 180 Call") ("call") ("2024-02-21")
      ("T1") ("2024-01-01 12:00") ("2024-01-02 10:00") 180 8 (5/2) 200 5 2
      (LedgerState.mk [] []) (by norm_num) (by norm_num) (by simp) (by simp)⟩

theorem update_one_preserves_entry (a b : Option ℚ) (d : ℤ) (p : Position) :
    ((update_one a b d p).1).entryFields = p.entryFields := rfl

/-- C8: update_positions recomputes only the valuation fields
(current_price, current_value, pnl_dollars, pnl_percent) of each open
position; every entry field (id, ticker, contract, option_type, strike,
expiration, entry_date, entry_price, contracts, cost_basis, target_price,
stop_price, stock_target, status) is unchanged, and no position is removed
or closed — the updated open set has the same positions in the same order,
with target/stop/expiry conditions only reported as alerts. -/
theorem update_positions_preserves_entry_fields
    (optO stockO : Position → Option ℚ) (dteO : Position → ℤ) (ps : List Position) :
    ((update_positions optO stockO dteO ps).1).map Position.entryFields =
      ps.map Position.entryFields := by
  induction ps with
  | nil => rfl
  | cons p rest ih =>
    simp only [update_positions, List.map_cons, update_one_preserves_entry, ih]
